import Mathlib

/-!
Shallow embedding of the `log_to_slack` package (`log_to_slack/__init__.py`,
`log_to_slack/formatters.py`, and the Python standard-library
`logging.Formatter.format` they delegate to).

Modelling conventions:
* A `LogRecord` is a structure holding the fields the package reads or writes.  Attributes
  that may be absent or `None` in Python are `Option`s; Python truthiness on strings
  (`None` and `""` are falsy) is `optStrTruthy`.
* `logging.Formatter.format` mutates the record (it caches `record.message` and
  `record.exc_text`); we model it by state passing: the function returns the produced
  string together with the updated record.
* A raising message renderer (template substitution can raise in Python) is modelled as
  a function into `Except Unit String`; an `Except.error` is a raised exception.
* The captured exception of a record is modelled by its `traceback.format_exception`
  rendering, a list of lines (`ExcInfo`), since the package only ever consumes that.
* Transport delivery (`WebhookClient.send` / `WebClient.chat_postMessage`) is a
  parameter of `emit` returning `Except DeliveryError Unit`; `DeliveryError` models
  `SlackApiError` with the delivery-failure kinds. `emit` additionally returns the list
  of transport calls it performed, so "no network call occurs" is statable.
-/

namespace LogToSlack

/-- Numeric severity levels of the Python `logging` module. -/
def NOTSET : Int := 0

def DEBUG : Int := 10

def INFO : Int := 20

def WARNING : Int := 30

def ERROR : Int := 40

def CRITICAL : Int := 50

def FATAL : Int := CRITICAL

def NOTSET_COLOR : String := "#808080"

def DEBUG_COLOR : String := "#00FFFF"

def INFO_COLOR : String := "#00C400"

def WARNING_COLOR : String := "#FFE240"

def ERROR_COLOR : String := "#FF0000"

def CRITICAL_COLOR : String := "#700000"

def FATAL_COLOR : String := CRITICAL_COLOR

/-- The `COLORS` mapping of `__init__.py`, as an association list (Python dict literal). -/
def COLORS : List (Int × String) :=
  [(NOTSET, NOTSET_COLOR), (DEBUG, DEBUG_COLOR), (INFO, INFO_COLOR), (WARNING, WARNING_COLOR),
   (ERROR, ERROR_COLOR), (FATAL, FATAL_COLOR), (CRITICAL, CRITICAL_COLOR)]

/-- `dict.get(k, d)`: first binding of `k`, else the default. -/
def dictGet (m : List (Int × String)) (k : Int) (d : String) : String :=
  match m.find? (fun p => p.1 == k) with
  | some p => p.2
  | none => d

def DEFAULT_EMOJI : String := ":heavy_exclamation_mark:"

/-- Python truthiness of an optional string attribute: `None` and `""` are falsy. -/
def optStrTruthy : Option String → Bool
  | none => false
  | some s => !(s == "")

/-- The captured exception of a record, represented by the list of lines that
`traceback.format_exception(*record.exc_info)` produces for it. -/
structure ExcInfo where
  lines : List String
  deriving Repr, DecidableEq

/-- The fields of a `logging.LogRecord` that the package reads or writes.
`message` is the cache attribute that `Formatter.format` assigns (absent on a fresh
record); `asctime` the cache attribute it assigns for time-using templates;
`levelprefix` the cache attribute that `formatters.py`'s `DefaultFormatter.format`
assigns; `created` the creation timestamp `formatTime` renders; `exc_text` is the
cached exception text; `notify_slack` is the metadata flag set via `extra={...}`
(absent when not supplied). -/
structure LogRecord where
  levelno : Int
  levelname : String
  msg : String
  exc_info : Option ExcInfo
  exc_text : Option String
  stack_info : Option String
  notify_slack : Option Bool
  message : Option String
  created : Int
  asctime : Option String
  levelprefix : Option String
  deriving Repr, DecidableEq

/-- One piece of a percent-style logging format string: a literal chunk or one of the
record-field substitutions used by templates. -/
inductive FmtItem where
  | lit : String → FmtItem
  | fMessage : FmtItem
  | fLevelname : FmtItem
  | fLevelno : FmtItem
  | fAsctime : FmtItem
  | fLevelprefix : FmtItem
  deriving Repr, DecidableEq

/-- Substitution of one template item against the record dict. -/
def renderItem (r : LogRecord) : FmtItem → String
  | FmtItem.lit s => s
  | FmtItem.fMessage => r.message.getD "None"
  | FmtItem.fLevelname => r.levelname
  | FmtItem.fLevelno => toString r.levelno
  | FmtItem.fAsctime => r.asctime.getD "None"
  | FmtItem.fLevelprefix => ( LogRecord.levelprefix r).getD "None"

/-- `PercentStyle.format`: render every template item against the record and concatenate. -/
def formatMessageT : List FmtItem → LogRecord → String
  | [], _ => ""
  | it :: ts, r => renderItem r it ++ formatMessageT ts r

/-- `Formatter.usesTime`: whether the configured format string references `asctime`. -/
def usesTimeT (t : List FmtItem) : Bool :=
  t.contains FmtItem.fAsctime

/-- `logging.Formatter.formatException`: the `traceback` rendering concatenated, with one
trailing newline stripped. -/
def genericFormatException (ei : ExcInfo) : String :=
  let s := String.join ei.lines
  if s.takeRight 1 == "\n" then s.dropRight 1 else s

/-- `s if s ends with a newline else s + "\n"` — the `s[-1:] != "\n"` step of
`logging.Formatter.format`. -/
def ensureNl (s : String) : String :=
  if s.takeRight 1 == "\n" then s else s ++ "\n"

/-- `logging.Formatter.format`, state-passing. `fm` is the style's `formatMessage`
(which may raise); `fe` is `formatException` (`none` models returning Python `None`,
as `NoStacktraceFormatter` overrides it to do); `ut` is `self.usesTime()` and `ft` the
external `formatTime` rendering of `record.created`. Returns the produced string (or
the escaping exception) together with the record as mutated by the call:
`record.message` is assigned first, `record.asctime` is assigned when the template uses
time, then `record.exc_text` is cached when exception info is present and no truthy
cached text exists, and the cached text and then `stack_info` are appended. -/
def Formatter.formatCore (fm : LogRecord → Except Unit String) (fe : ExcInfo → Option String)
    (ut : Bool) (ft : Int → String) (r : LogRecord) : Except Unit String × LogRecord :=
  let r0 : LogRecord := { r with message := some r.msg }
  let r1 : LogRecord := if ut then { r0 with asctime := some (ft r0.created) } else r0
  match fm r1 with
  | Except.error e => (Except.error e, r1)
  | Except.ok s0 =>
    let r2 : LogRecord :=
      match r1.exc_info with
      | some ei => if optStrTruthy r1.exc_text then r1 else { r1 with exc_text := fe ei }
      | none => r1
    let s1 := if optStrTruthy r2.exc_text then ensureNl s0 ++ r2.exc_text.getD "" else s0
    let s2 := if optStrTruthy r2.stack_info then ensureNl s1 ++ r2.stack_info.getD "" else s1
    (Except.ok s2, r2)

/-- `NoStacktraceFormatter.formatException` returns `None`. -/
def NoStacktraceFormatter.formatException (_ : ExcInfo) : Option String := none

/-- `__init__.py`'s `NoStacktraceFormatter.format`: save `record.exc_text`, null it,
delegate to the generic `Formatter.format`, and restore `exc_text` in a `finally`
(so it is restored on both the normal and the raising path). -/
def NoStacktraceFormatter.formatE (fm : LogRecord → Except Unit String) (ut : Bool)
    (ft : Int → String) (r : LogRecord) : Except Unit String × LogRecord :=
  let saved := r.exc_text
  let p := Formatter.formatCore fm NoStacktraceFormatter.formatException ut ft
    { r with exc_text := none }
  (p.1, { p.2 with exc_text := saved })

/-- The `seperator` (sic) of `formatters.py`: pad to eight columns, empty when the
level name is already longer (Python's `" " * negative` is `""`). -/
def seperator (levelname : String) : String :=
  String.mk (List.replicate (8 - levelname.length) ' ')

/-- `formatters.py`'s `DefaultFormatter.format`: permanently assign the
`record.levelprefix` cache attribute, then delegate to the generic `Formatter.format`
(with whatever `formatException` the instance carries, so the subclass override flows
through). -/
def Formatters.DefaultFormatter.formatE (fm : LogRecord → Except Unit String)
    (fe : ExcInfo → Option String) (ut : Bool) (ft : Int → String) (r : LogRecord) :
    Except Unit String × LogRecord :=
  Formatter.formatCore fm fe ut ft
    { r with levelprefix := some (r.levelname ++ ":" ++ seperator r.levelname) }

/-- `formatters.py`'s `NoStacktraceFormatter.format`: the same null-and-restore wrapper
around `DefaultFormatter.format`, with `formatException` overridden to return `None`. -/
def Formatters.NoStacktraceFormatter.formatE (fm : LogRecord → Except Unit String)
    (ut : Bool) (ft : Int → String) (r : LogRecord) : Except Unit String × LogRecord :=
  let saved := r.exc_text
  let p := Formatters.DefaultFormatter.formatE fm NoStacktraceFormatter.formatException ut ft
    { r with exc_text := none }
  (p.1, { p.2 with exc_text := saved })

/-- A template, used as a non-raising message renderer. -/
def tmplRenderer (t : List FmtItem) : LogRecord → Except Unit String :=
  fun r => Except.ok (formatMessageT t r)

/-- The `logging` module's default format string `"%(message)s"`, which the handler's
`NoStacktraceFormatter()` is constructed with. -/
def DEFAULT_TEMPLATE : List FmtItem := [FmtItem.fMessage]

/-- Stand-in for the external `time.strftime` rendering performed by
`Formatter.formatTime`; every theorem is quantified over the rendering function, and
the handler's default template does not use time, so its value is never relevant. -/
def defaultFormatTime (created : Int) : String :=
  toString created

def okD (x : Except Unit String) (d : String) : String :=
  match x with
  | Except.ok s => s
  | Except.error _ => d

/-- `SlackLogHandler.build_msg`: format the record with the handler's
`NoStacktraceFormatter` (default template), returning the text and the updated record. -/
def SlackLogHandler.build_msg (r : LogRecord) : String × LogRecord :=
  let p := NoStacktraceFormatter.formatE (tmplRenderer DEFAULT_TEMPLATE)
    (usesTimeT DEFAULT_TEMPLATE) defaultFormatTime r
  (okD p.1 "", p.2)

/-- The Slack attachment dict built by `SlackLogHandler.build_trace`: `fallback` and
`color` keys always, `text` key only when set. -/
structure TraceAttachment where
  fallback : String
  color : String
  text : Option String
  deriving Repr, DecidableEq

/-- `SlackLogHandler.build_trace`: always `fallback` and `color`
(`COLORS.get(record.levelno, NOTSET_COLOR)`); when `record.exc_info` is set, also a
`text` key holding the newline-joined `traceback.format_exception` lines wrapped in a
code fence. -/
def SlackLogHandler.build_trace (r : LogRecord) (fallback : String) : TraceAttachment :=
  { fallback := fallback
    color := dictGet COLORS r.levelno NOTSET_COLOR
    text :=
      match r.exc_info with
      | some ei => some ("```" ++ String.intercalate "\n" ei.lines ++ "```")
      | none => none }

/-- `SlackLogFilter.filter`: `getattr(record, "notify_slack", False)`. -/
def SlackLogFilter.filter (r : LogRecord) : Bool :=
  r.notify_slack.getD false

/-- The handler state established by `SlackLogHandler.__init__` (the fields that survive
construction; the transport clients are modelled at the `emit` call instead). -/
structure HandlerState where
  stack_trace : Bool
  fail_silent : Bool
  username : String
  icon_url : Option String
  icon_emoji : Option String
  is_debug : Bool
  is_webhook : Bool
  channel : Option String
  deriving Repr, DecidableEq

/-- The `icon_emoji` resolution of `__init__`:
`icon_emoji if (icon_emoji or icon_url) else DEFAULT_EMOJI`. -/
def resolveIconEmoji (icon_emoji icon_url : Option String) : Option String :=
  if optStrTruthy icon_emoji || optStrTruthy icon_url then icon_emoji else some DEFAULT_EMOJI

/-- `SlackLogHandler.__init__`: sets the handler attributes, then validates the
transport configuration, raising `ValueError` (modelled as `Except.error`) when the
webhook URL is missing in webhook mode, or the token or channel is missing in API mode. -/
def SlackLogHandler.init (slack_token channel webhook_url : Option String)
    (is_webhook is_debug stack_trace : Bool) (username : String)
    (icon_url icon_emoji : Option String) (fail_silent : Bool) :
    Except String HandlerState :=
  let st : HandlerState :=
    { stack_trace := stack_trace
      fail_silent := fail_silent
      username := username
      icon_url := icon_url
      icon_emoji := resolveIconEmoji icon_emoji icon_url
      is_debug := is_debug
      is_webhook := is_webhook
      channel := none }
  if is_webhook then
    if !(optStrTruthy webhook_url) then
      Except.error "webhook_url is required when webhook delivery is enabled"
    else Except.ok st
  else
    if !(optStrTruthy slack_token) then
      Except.error "slack_token is required when not using webhook_url"
    else if !(optStrTruthy channel) then
      Except.error "channel is required when not using webhook_url"
    else Except.ok { st with channel := channel }

def isOkB {ε α : Type} : Except ε α → Bool
  | Except.ok _ => true
  | Except.error _ => false

/-- The delivery failure kinds of the error taxonomy (`SlackApiError` as raised by the
transports). -/
inductive DeliveryError where
  | AuthError : DeliveryError
  | RateLimited : DeliveryError
  | NetworkError : DeliveryError
  | InvalidPayload : DeliveryError
  | Unknown : DeliveryError
  deriving Repr, DecidableEq

/-- One transport call as `emit` issues it: `WebhookClient.send(text, attachments)` or
`WebClient.chat_postMessage(text, channel, username, icon_url, icon_emoji, attachments)`. -/
inductive SendCall where
  | webhook : String → Option (List TraceAttachment) → SendCall
  | api : String → Option String → String → Option String → Option String →
      Option (List TraceAttachment) → SendCall
  deriving Repr, DecidableEq

/-- `SlackLogHandler.emit`, state-passing over the record and instrumented with the list
of transport calls performed. Builds the message, builds the attachment list when
`stack_trace` is set, returns early when `is_debug`, otherwise performs the one
transport call; a `DeliveryError` from the transport is swallowed when `fail_silent`
and re-raised otherwise. -/
def SlackLogHandler.emit (h : HandlerState) (send : SendCall → Except DeliveryError Unit)
    (r : LogRecord) : Except DeliveryError Unit × LogRecord × List SendCall :=
  let p := SlackLogHandler.build_msg r
  let message := p.1
  let r1 := p.2
  let attachments : Option (List TraceAttachment) :=
    if h.stack_trace then some [SlackLogHandler.build_trace r1 message] else none
  if h.is_debug then (Except.ok (), r1, [])
  else
    let call : SendCall :=
      if h.is_webhook then SendCall.webhook message attachments
      else SendCall.api message h.channel h.username h.icon_url h.icon_emoji attachments
    match send call with
    | Except.ok _ => (Except.ok (), r1, [call])
    | Except.error e => (if h.fail_silent then Except.ok () else Except.error e, r1, [call])

/-- A record with exception info and no flags, used for concrete evaluations. -/
def recExc : LogRecord :=
  { levelno := 40
    levelname := "ERROR"
    msg := "disk full"
    exc_info := some { lines := ["Traceback (most recent call last):\n", "IOError: no space\n"] }
    exc_text := none
    stack_info := none
    notify_slack := none
    message := none
    created := 1700000000
    asctime := none
    levelprefix := none }

/-- Erase the exception fields of a record. -/
def clearExcFields (r : LogRecord) : LogRecord :=
  { r with exc_info := none, exc_text := none }

/-- The permanent cache-attribute assignments `logging.Formatter.format` performs on
the record: `message` always, `asctime` exactly when the template uses time. -/
def cacheUpdated (ut : Bool) (ft : Int → String) (r : LogRecord) : LogRecord :=
  { r with
      message := some r.msg
      asctime := if ut then some (ft r.created) else r.asctime }

/-- A record carrying a cached exception text, for the raising-renderer witness. -/
def recCached : LogRecord :=
  { levelno := 40
    levelname := "ERROR"
    msg := "boom"
    exc_info := some { lines := ["ValueError: boom\n"] }
    exc_text := some "ValueError: boom"
    stack_info := none
    notify_slack := none
    message := none
    created := 1700000001
    asctime := none
    levelprefix := none }

/-- A live (non-debug, non-silent) webhook handler configuration. -/
def hLive : HandlerState :=
  { stack_trace := true
    fail_silent := false
    username := "Logging Alerts"
    icon_url := none
    icon_emoji := some DEFAULT_EMOJI
    is_debug := false
    is_webhook := true
    channel := none }

/-- A debug-mode (dry-run) handler configuration. -/
def hDebug : HandlerState :=
  { hLive with is_debug := true }

/-- A record carrying the notify flag. -/
def recFlag : LogRecord :=
  { recExc with notify_slack := some true }

/-- A record at an unmapped severity level (25 has no `COLORS` entry). -/
def recOdd : LogRecord :=
  { recExc with levelno := 25, exc_info := none }

/-- The state constructed by a webhook-mode call with no icon options. -/
def hPlain : HandlerState :=
  { stack_trace := true
    fail_silent := false
    username := "Logging Alerts"
    icon_url := none
    icon_emoji := some DEFAULT_EMOJI
    is_debug := false
    is_webhook := true
    channel := none }

example : (SlackLogHandler.build_msg recExc).1 = "disk full" := by decide

example : (SlackLogHandler.build_trace recExc "disk full").color = ERROR_COLOR := by decide

example : SlackLogFilter.filter recExc = false := by decide

/-- Template substitution reads only `levelno`, `levelname`, `message`, `asctime` and
the level prefix; it is blind to the exception fields. -/
theorem formatMessageT_congr (t : List FmtItem) (a b : LogRecord)
    (h1 : a.levelno = b.levelno) (h2 : a.levelname = b.levelname)
    (h3 : a.message = b.message) (h4 : a.asctime = b.asctime)
    (h5 : LogRecord.levelprefix a = LogRecord.levelprefix b) :
    formatMessageT t a = formatMessageT t b := by
  induction t with
  | nil => rfl
  | cons it ts ih =>
    cases it <;> simp [formatMessageT, renderItem, h1, h2, h3, h4, h5, ih]

/-- Closed-form evaluation of `NoStacktraceFormatter.format` under a template renderer:
the substituted template, with only `stack_info` ever appended — the exception branch of
the generic `format` is neutralized because the overridden `formatException` yields
`None`. -/
theorem formatE_tmpl_eval (t : List FmtItem) (ut : Bool) (ft : Int → String) (r : LogRecord) :
    (NoStacktraceFormatter.formatE (tmplRenderer t) ut ft r).1
      = Except.ok (if optStrTruthy r.stack_info
          then ensureNl (formatMessageT t (cacheUpdated ut ft { r with exc_text := none }))
            ++ r.stack_info.getD ""
          else formatMessageT t (cacheUpdated ut ft { r with exc_text := none })) := by
  obtain ⟨lvl, lname, m, ei, et, si, ns, mc, cr, asc, lp⟩ := r
  cases ut <;> cases ei <;>
    simp [NoStacktraceFormatter.formatE, Formatter.formatCore, tmplRenderer,
      NoStacktraceFormatter.formatException, optStrTruthy, cacheUpdated]

/-- C1: For every configured text template (its `usesTime` behaviour included) and
every time rendering, the string produced by `NoStacktraceFormatter.format` is the same
as on the record with its captured exception info and cached exception text erased — no
exception stack-trace text reaches the rendered message even when the record carries
exception info; concretely, the handler's `build_msg` yields exactly the record's
interpolated message (with only the separately captured `stack_info`, which is not
exception-derived, appended when present). -/
theorem C1_formatter_suppresses_exception_trace (t : List FmtItem) (ft : Int → String)
    (r : LogRecord) :
    (NoStacktraceFormatter.formatE (tmplRenderer t) (usesTimeT t) ft r).1
      = (NoStacktraceFormatter.formatE (tmplRenderer t) (usesTimeT t) ft (clearExcFields r)).1
  ∧ (SlackLogHandler.build_msg r).1
      = (if optStrTruthy r.stack_info then ensureNl r.msg ++ r.stack_info.getD ""
         else r.msg) := by
  obtain ⟨lvl, lname, m, ei, et, si, ns, mc, cr, asc, lp⟩ := r
  constructor
  · rw [formatE_tmpl_eval, formatE_tmpl_eval]
    have h := formatMessageT_congr t
      (cacheUpdated (usesTimeT t) ft (LogRecord.mk lvl lname m ei none si ns mc cr asc lp))
      (cacheUpdated (usesTimeT t) ft (LogRecord.mk lvl lname m none none si ns mc cr asc lp))
      rfl rfl rfl rfl rfl
    simp [clearExcFields, h]
  · have hu : usesTimeT [FmtItem.fMessage] = false := rfl
    cases ei <;>
      simp [SlackLogHandler.build_msg, NoStacktraceFormatter.formatE, Formatter.formatCore,
        tmplRenderer, NoStacktraceFormatter.formatException, DEFAULT_TEMPLATE, hu,
        formatMessageT, renderItem, okD, optStrTruthy]

/-- C8 as stated is false: formatting permanently sets the record's `message` cache
attribute, so the record is not bit-for-bit identical afterwards. Witnessed on a fresh
record (no `message` attribute) with the handler's own formatter and template. -/
theorem C8_counterexample :
    (NoStacktraceFormatter.formatE (tmplRenderer DEFAULT_TEMPLATE)
        (usesTimeT DEFAULT_TEMPLATE) defaultFormatTime recExc).2 ≠ recExc := by
  decide

/-- C8 (amended): after a format call returns, `exc_text` is restored to its pre-call
value and no field other than the cache attributes is altered — but the cache
attributes are permanently (re)assigned: `__init__.py`'s `NoStacktraceFormatter.format`
assigns `message` (and `asctime` whenever the configured template uses time), and the
`formatters.py` `NoStacktraceFormatter.format` chain additionally assigns the
`levelprefix` attribute through `DefaultFormatter.format`. This holds for every message
renderer, raising or not, and every time rendering. -/
theorem C8_amended_record_restored (fm : LogRecord → Except Unit String) (ut : Bool)
    (ft : Int → String) (r : LogRecord) :
    (NoStacktraceFormatter.formatE fm ut ft r).2 = cacheUpdated ut ft r
  ∧ (Formatters.NoStacktraceFormatter.formatE fm ut ft r).2
      = cacheUpdated ut ft
          { r with levelprefix := some (r.levelname ++ ":" ++ seperator r.levelname) } := by
  obtain ⟨lvl, lname, m, ei, et, si, ns, mc, cr, asc, lp⟩ := r
  constructor
  · simp only [NoStacktraceFormatter.formatE, Formatter.formatCore]
    cases ut <;> split <;> cases ei <;>
      simp [NoStacktraceFormatter.formatException, optStrTruthy, cacheUpdated]
  · simp only [Formatters.NoStacktraceFormatter.formatE, Formatters.DefaultFormatter.formatE,
      Formatter.formatCore]
    cases ut <;> split <;> cases ei <;>
      simp [NoStacktraceFormatter.formatException, optStrTruthy, cacheUpdated]

/-- C10: when the underlying generic renderer raises, the exception escapes
`NoStacktraceFormatter.format` but the record's cached `exc_text` is still restored to
its pre-call value by the `finally` block — in both the `__init__.py` formatter and the
`formatters.py` formatter chain. -/
theorem C10_exc_text_restored_on_raise (fm : LogRecord → Except Unit String) (ut : Bool)
    (ft : Int → String) (r : LogRecord) (hraise : ∀ x, fm x = Except.error ()) :
    ((NoStacktraceFormatter.formatE fm ut ft r).1 = Except.error ()
      ∧ (NoStacktraceFormatter.formatE fm ut ft r).2.exc_text = r.exc_text)
  ∧ ((Formatters.NoStacktraceFormatter.formatE fm ut ft r).1 = Except.error ()
      ∧ (Formatters.NoStacktraceFormatter.formatE fm ut ft r).2.exc_text = r.exc_text) := by
  refine ⟨⟨?_, ?_⟩, ?_, ?_⟩ <;>
    cases ut <;>
    simp [NoStacktraceFormatter.formatE, Formatters.NoStacktraceFormatter.formatE,
      Formatters.DefaultFormatter.formatE, Formatter.formatCore, hraise]

theorem C10_witness :
    ((NoStacktraceFormatter.formatE (fun _ => Except.error ()) true defaultFormatTime
        recCached).1 = Except.error ()
      ∧ (NoStacktraceFormatter.formatE (fun _ => Except.error ()) true defaultFormatTime
          recCached).2.exc_text = recCached.exc_text)
  ∧ ((Formatters.NoStacktraceFormatter.formatE (fun _ => Except.error ()) true
        defaultFormatTime recCached).1 = Except.error ()
      ∧ (Formatters.NoStacktraceFormatter.formatE (fun _ => Except.error ()) true
          defaultFormatTime recCached).2.exc_text = recCached.exc_text) :=
  C10_exc_text_restored_on_raise (fun _ => Except.error ()) true defaultFormatTime
    recCached (fun _ => rfl)

/-- C2: `build_trace` always sets `fallback` (to the rendered message passed in) and
`color` (the severity lookup with the neutral default); it carries a `text` body iff
the record has captured exception info, and then the body is the newline-joined
formatted exception wrapped in a code fence. -/
theorem C2_build_trace_shape (r : LogRecord) (fb : String) :
    (SlackLogHandler.build_trace r fb).fallback = fb
  ∧ (SlackLogHandler.build_trace r fb).color = dictGet COLORS r.levelno NOTSET_COLOR
  ∧ ((SlackLogHandler.build_trace r fb).text.isSome ↔ r.exc_info.isSome)
  ∧ (∀ ei, r.exc_info = some ei →
      (SlackLogHandler.build_trace r fb).text
        = some ("```" ++ String.intercalate "\n" ei.lines ++ "```")) := by
  refine ⟨rfl, rfl, ?_, ?_⟩
  · cases h : r.exc_info <;> simp [SlackLogHandler.build_trace, h]
  · intro ei h
    simp [SlackLogHandler.build_trace, h]

theorem C2_witness :
    (SlackLogHandler.build_trace recExc "disk full").text
      = some ("```" ++ String.intercalate "\n"
          ["Traceback (most recent call last):\n", "IOError: no space\n"] ++ "```") :=
  (C2_build_trace_shape recExc "disk full").2.2.2
    { lines := ["Traceback (most recent call last):\n", "IOError: no space\n"] } rfl

/-- C3: when the transport raises a `DeliveryError` (of any kind), `emit` returns
normally and discards it when `fail_silent` is set, and re-raises that same error when
`fail_silent` is not set. -/
theorem C3_fail_silent_policy (h : HandlerState) (r : LogRecord) (e : DeliveryError)
    (hdbg : h.is_debug = false) :
    (SlackLogHandler.emit h (fun _ => Except.error e) r).1
      = (if h.fail_silent then Except.ok () else Except.error e) := by
  simp [SlackLogHandler.emit, hdbg]

theorem C3_witness :
    (SlackLogHandler.emit hLive (fun _ => Except.error DeliveryError.AuthError) recExc).1
      = (if hLive.fail_silent then Except.ok () else Except.error DeliveryError.AuthError) :=
  C3_fail_silent_policy hLive recExc DeliveryError.AuthError rfl

/-- C5: with `is_debug` set, `emit` returns normally having performed no transport call
at all, for every record and every transport behaviour; the record still carries the
effects of message formatting (`build_msg` ran). -/
theorem C5_debug_suppresses_delivery (h : HandlerState)
    (send : SendCall → Except DeliveryError Unit) (r : LogRecord)
    (hdbg : h.is_debug = true) :
    SlackLogHandler.emit h send r = (Except.ok (), (SlackLogHandler.build_msg r).2, []) := by
  simp [SlackLogHandler.emit, hdbg]

theorem C5_witness :
    SlackLogHandler.emit hDebug (fun _ => Except.error DeliveryError.Unknown) recExc
      = (Except.ok (), (SlackLogHandler.build_msg recExc).2, []) :=
  C5_debug_suppresses_delivery hDebug (fun _ => Except.error DeliveryError.Unknown) recExc rfl

/-- C6: the eligibility filter returns true iff the record's `notify_slack` metadata
flag is present and true. -/
theorem C6_filter_iff_flag (r : LogRecord) :
    SlackLogFilter.filter r = true ↔ r.notify_slack = some true := by
  cases h : r.notify_slack with
  | none => simp [SlackLogFilter.filter, h]
  | some b => cases b <;> simp [SlackLogFilter.filter, h]

theorem C6_witness : SlackLogFilter.filter recFlag = true :=
  (C6_filter_iff_flag recFlag).mpr rfl

/-- C7: the attachment color is an exact function of the record's `levelno` through the
static `COLORS` mapping; an unmapped level gets the neutral default color; records with
equal levels always get equal colors. -/
theorem C7_color_is_function_of_level (r : LogRecord) (fb : String) :
    (SlackLogHandler.build_trace r fb).color = dictGet COLORS r.levelno NOTSET_COLOR
  ∧ (COLORS.find? (fun p => p.1 == r.levelno) = none →
      (SlackLogHandler.build_trace r fb).color = NOTSET_COLOR)
  ∧ (∀ r2 fb2, r2.levelno = r.levelno →
      (SlackLogHandler.build_trace r2 fb2).color = (SlackLogHandler.build_trace r fb).color) := by
  refine ⟨rfl, ?_, ?_⟩
  · intro h
    simp [SlackLogHandler.build_trace, dictGet, h]
  · intro r2 fb2 h
    simp [SlackLogHandler.build_trace, h]

theorem C7_witness :
    (SlackLogHandler.build_trace recOdd "x").color = NOTSET_COLOR :=
  (C7_color_is_function_of_level recOdd "x").2.1 (by decide)

/-- C4: construction succeeds exactly when the active transport's configuration is
complete — in API mode (`is_webhook = false`) a truthy token and channel are both
required, in webhook mode a truthy webhook URL is required — and an incomplete
configuration is rejected with an error synchronously at construction time. -/
theorem C4_construction_validation (tok ch url : Option String) (dbg st : Bool)
    (un : String) (iu ie : Option String) (fs : Bool) :
    isOkB (SlackLogHandler.init tok ch url false dbg st un iu ie fs)
      = (optStrTruthy tok && optStrTruthy ch)
  ∧ isOkB (SlackLogHandler.init tok ch url true dbg st un iu ie fs)
      = optStrTruthy url := by
  constructor
  · cases h1 : optStrTruthy tok <;> cases h2 : optStrTruthy ch <;>
      simp [SlackLogHandler.init, isOkB, h1, h2]
  · cases h3 : optStrTruthy url <;>
      simp [SlackLogHandler.init, isOkB, h3]

/-- C9 as stated is false: supplying `icon_emoji` explicitly equal to the fallback emoji
makes the effective icon emoji equal to the fallback even though an icon option was
supplied, refuting the only-if direction of the claimed equivalence. -/
theorem C9_counterexample :
    (SlackLogHandler.init (some "tok") (some "chan") (some "https://hooks.slack.test") true
        false true "Logging Alerts" none (some ":heavy_exclamation_mark:") false).map
      HandlerState.icon_emoji = Except.ok (some DEFAULT_EMOJI)
  ∧ (some ":heavy_exclamation_mark:" : Option String) ≠ none := by
  constructor
  · rfl
  · simp

/-- C9 (amended): the constructed handler's effective icon emoji is
`resolveIconEmoji icon_emoji icon_url`; hence it is the fixed fallback emoji whenever
neither icon option was supplied, and it is exactly the supplied `icon_emoji` value
(possibly absent, when only `icon_url` was given) whenever either icon option is truthy.
The only-if direction of the original claim fails when the supplied `icon_emoji` itself
equals the fallback emoji (or when only empty strings are supplied). -/
theorem C9_amended_icon_emoji (tok ch url : Option String) (wh dbg st : Bool)
    (un : String) (iu ie : Option String) (fs : Bool) (s : HandlerState)
    (hok : SlackLogHandler.init tok ch url wh dbg st un iu ie fs = Except.ok s) :
    s.icon_emoji = resolveIconEmoji ie iu
  ∧ (ie = none ∧ iu = none → s.icon_emoji = some DEFAULT_EMOJI)
  ∧ ((optStrTruthy ie || optStrTruthy iu) = true → s.icon_emoji = ie) := by
  have hbase : s.icon_emoji = resolveIconEmoji ie iu := by
    unfold SlackLogHandler.init at hok
    cases wh <;> simp only [Bool.false_eq_true, if_false, if_true, reduceIte] at hok <;>
      split at hok <;> try split at hok
    all_goals first
      | (injection hok with h; subst h; rfl)
      | injection hok
  refine ⟨hbase, ?_, ?_⟩
  · rintro ⟨h1, h2⟩
    rw [hbase, h1, h2]
    rfl
  · intro h
    rw [hbase, resolveIconEmoji, h]
    rfl

theorem C9_witness :
    hPlain.icon_emoji = resolveIconEmoji none none
  ∧ ((none : Option String) = none ∧ (none : Option String) = none →
      hPlain.icon_emoji = some DEFAULT_EMOJI)
  ∧ ((optStrTruthy none || optStrTruthy none) = true → hPlain.icon_emoji = none) :=
  C9_amended_icon_emoji (some "tok") (some "chan") (some "https://hooks.slack.test") true
    false true "Logging Alerts" none none false hPlain rfl

end LogToSlack
